import Mathlib

/-!
Shallow embedding of the cRUST software synthesizer core (src/src/lib.rs).

Modelling choices:
* `f32`/`f64` values are modelled as `ℚ` wherever only field arithmetic and
  comparisons occur (envelope, parameters, noise), and as `ℝ` on the waveform
  path, which uses `sin`, `2^x` and `floor` of real arguments.
* Rust float division `x / 0.0` yields `NaN`/`±Inf`; the rational model has
  `x / 0 = 0` instead.  Where a claim is about those degenerate divisions,
  the checked variant `get_amplitudeChecked` mirrors the same control flow
  but returns `none` whenever a division with zero divisor is executed.
* `random::<f32>()` in `noise` is modelled by an explicit oracle argument `r`
  (the drawn value), making `noise` a pure function of `(dist, r)`.
* The per-sample body of `Crust::process` is modelled by `renderSample`,
  which computes the value written to `*output_sample` for one sample from
  the engine state and one noise draw.
-/

/-- `struct Oscillator { volume, wave_index, detune }` (all `f32`). -/
structure Oscillator where
  volume : ℚ
  wave_index : ℚ
  detune : ℚ
deriving Repr, DecidableEq

/-- `struct Envelope { attack, decay, sustain, release, duration, end_time, note_on }`. -/
structure Envelope where
  attack : ℚ
  decay : ℚ
  sustain : ℚ
  release : ℚ
  duration : ℚ
  end_time : ℚ
  note_on : Bool
deriving Repr, DecidableEq

/-- `struct Crust`: the whole engine state.  The two elements of the Rust
`oscillators` vector (only indices 0 and 1 are ever used) are the fields
`osc0` and `osc1`; `notes: Vec<u8>` is a `List ℕ`. -/
structure Crust where
  time : ℝ
  sample_rate : ℚ
  osc0 : Oscillator
  osc1 : Oscillator
  notes : List ℕ
  noise : ℚ
  envelope : Envelope
  master_vol : ℚ

/-- `midi_note_num_to_freq`: `(((n as f64 - 69.0) / 12.0).exp2() * 440.0) - detune`. -/
noncomputable def midi_note_num_to_freq (midi_note_number : ℕ) (detune : ℚ) : ℝ :=
  (2 : ℝ) ^ (((midi_note_number : ℝ) - 69) / 12) * 440 - (detune : ℝ)

/-- `create_sine_wave`: `volume * (time * freq * 2.0 * PI).sin()`. -/
noncomputable def create_sine_wave (midi_note : ℕ) (volume : ℚ) (time : ℝ) (detune : ℚ) : ℝ :=
  (volume : ℝ) * Real.sin (time * midi_note_num_to_freq midi_note detune * 2 * Real.pi)

/-- `create_sawtooth_wave`: `volume * (t*f - (t*f).floor() - 0.5)`. -/
noncomputable def create_sawtooth_wave (midi_note : ℕ) (volume : ℚ) (time : ℝ) (detune : ℚ) : ℝ :=
  (volume : ℝ) * (time * midi_note_num_to_freq midi_note detune -
    (⌊time * midi_note_num_to_freq midi_note detune⌋ : ℝ) - 0.5)

/-- `create_square_wave`: `±(volume * 0.4)` by the sign of `sin(t*f*2π)`. -/
noncomputable def create_square_wave (midi_note : ℕ) (volume : ℚ) (time : ℝ) (detune : ℚ) : ℝ :=
  if Real.sin (time * midi_note_num_to_freq midi_note detune * 2 * Real.pi) ≥ 0 then
    (volume : ℝ) * 0.4
  else
    (volume : ℝ) * (-0.4)

/-- `create_triangle_wave`: `volume * (((t*f - (t*f).floor() - 0.5).abs() - 0.25) * 4.0)`. -/
noncomputable def create_triangle_wave (midi_note : ℕ) (volume : ℚ) (time : ℝ) (detune : ℚ) : ℝ :=
  (volume : ℝ) * ((|time * midi_note_num_to_freq midi_note detune -
    (⌊time * midi_note_num_to_freq midi_note detune⌋ : ℝ) - 0.5| - 0.25) * 4)

/-- `noise(dist)`: `dist * (((0.02 * (random() * 2.0 - 1.0)) / 1.02) * 3.5)`,
with the random draw made an explicit argument `r`. -/
def noise (dist : ℚ) (r : ℚ) : ℚ :=
  dist * (((0.02 * (r * 2 - 1)) / 1.02) * 3.5)

/-- `get_amplitude(envelope, master_vol)`: the gated attack/decay/sustain amplitude. -/
def get_amplitude (envelope : Envelope) (master_vol : ℚ) : ℚ :=
  if envelope.duration ≤ envelope.attack then
    (envelope.duration / envelope.attack) * master_vol
  else if envelope.duration > envelope.attack ∧
      envelope.duration ≤ envelope.attack + envelope.decay then
    ((envelope.duration - envelope.attack) / envelope.decay) *
      (envelope.sustain - master_vol) + master_vol
  else
    envelope.sustain

/-- `get_amplitude` with the same control flow, flagging each executed float
division whose divisor is `0` (an `f32` division by zero yields `NaN`/`±Inf`,
which the rational model cannot represent): such a call returns `none`. -/
def get_amplitudeChecked (envelope : Envelope) (master_vol : ℚ) : Option ℚ :=
  if envelope.duration ≤ envelope.attack then
    if envelope.attack = 0 then none
    else some ((envelope.duration / envelope.attack) * master_vol)
  else if envelope.duration > envelope.attack ∧
      envelope.duration ≤ envelope.attack + envelope.decay then
    if envelope.decay = 0 then none
    else some (((envelope.duration - envelope.attack) / envelope.decay) *
      (envelope.sustain - master_vol) + master_vol)
  else
    some envelope.sustain

/-- `generate_release(envelope, master_vol)`: three sequential `if`s (last
satisfied assignment wins) computing the release-start amplitude, then the
linear release ramp `(end_time/release) * (0 - ra) + ra`. -/
def generate_release (envelope : Envelope) (master_vol : ℚ) : ℚ :=
  let ra0 : ℚ := 0
  let ra1 := if envelope.duration ≤ envelope.attack then
      (envelope.duration / envelope.attack) * master_vol
    else ra0
  let ra2 := if envelope.duration > envelope.attack ∧
      envelope.duration ≤ envelope.attack + envelope.decay then
      ((envelope.duration - envelope.attack) / envelope.decay) *
        (envelope.sustain - master_vol) + master_vol
    else ra1
  let ra3 := if envelope.duration > envelope.attack + envelope.decay then
      envelope.sustain
    else ra2
  (envelope.end_time / envelope.release) * (0 - ra3) + ra3

/-- `Crust::note_on`: push the note, open the gate, reset the duration timer. -/
def note_on (c : Crust) (note : ℕ) : Crust :=
  { c with
    notes := c.notes ++ [note],
    envelope := { c.envelope with note_on := true, duration := 0 } }

/-- `Crust::note_off`: `self.notes.retain(|&x| x != note)` (keep elements
different from `note`), close the gate, reset the release timer. -/
def note_off (c : Crust) (note : ℕ) : Crust :=
  { c with
    notes := c.notes.filter (fun x => x != note),
    envelope := { c.envelope with note_on := false, end_time := 0 } }

/-- `get_parameter(index)`. -/
def get_parameter (c : Crust) (index : ℤ) : ℚ :=
  match index with
  | 0 => c.osc0.wave_index
  | 1 => c.osc0.volume
  | 2 => c.osc0.detune
  | 3 => c.osc1.wave_index
  | 4 => c.osc1.volume
  | 5 => c.osc1.detune
  | 6 => c.noise
  | 7 => c.envelope.attack
  | 8 => c.envelope.decay
  | 9 => c.envelope.sustain
  | 10 => c.envelope.release
  | 11 => c.master_vol
  | _ => 0

/-- `set_parameter(index, val)` (detune indices store `val * 10.0`,
attack/decay/release store `val * 5.0`). -/
def set_parameter (c : Crust) (index : ℤ) (val : ℚ) : Crust :=
  match index with
  | 0 => { c with osc0 := { c.osc0 with wave_index := val } }
  | 1 => { c with osc0 := { c.osc0 with volume := val } }
  | 2 => { c with osc0 := { c.osc0 with detune := val * 10 } }
  | 3 => { c with osc1 := { c.osc1 with wave_index := val } }
  | 4 => { c with osc1 := { c.osc1 with volume := val } }
  | 5 => { c with osc1 := { c.osc1 with detune := val * 10 } }
  | 6 => { c with noise := val }
  | 7 => { c with envelope := { c.envelope with attack := val * 5 } }
  | 8 => { c with envelope := { c.envelope with decay := val * 5 } }
  | 9 => { c with envelope := { c.envelope with sustain := val } }
  | 10 => { c with envelope := { c.envelope with release := val * 5 } }
  | 11 => { c with master_vol := val }
  | _ => c

/-- One oscillator's accumulation loop over the note registry in `process`:
`wave += create_*_wave(..)` per note in the wave-index band, with the final
`else` branch resetting the accumulator to `0.0` (as `wave1 = 0.0` does). -/
noncomputable def accumulate_wave (osc : Oscillator) (time : ℝ) (notes : List ℕ) : ℝ :=
  notes.foldl (fun acc note =>
    if 0 ≤ osc.wave_index ∧ osc.wave_index < 0.33 then
      acc + create_sine_wave note osc.volume time osc.detune
    else if 0.33 ≤ osc.wave_index ∧ osc.wave_index < 0.66 then
      acc + create_sawtooth_wave note osc.volume time osc.detune
    else if 0.66 ≤ osc.wave_index ∧ osc.wave_index < 1 then
      acc + create_square_wave note osc.volume time osc.detune
    else if 1 ≤ osc.wave_index then
      acc + create_triangle_wave note osc.volume time osc.detune
    else 0) 0

/-- The value written to `*output_sample` for one sample of `Crust::process`,
given the engine state and this sample's noise draw `r`:
gated ⇒ `get_amplitude * (wave1 + wave2 + noise)`;
not gated ⇒ `0` if `generate_release < 0.0`, else
`generate_release * (wave1 + wave2 + noise)`. -/
noncomputable def renderSample (c : Crust) (r : ℚ) : ℝ :=
  let wave1 := accumulate_wave c.osc0 c.time c.notes
  let wave2 := accumulate_wave c.osc1 c.time c.notes
  if c.envelope.note_on = true then
    (get_amplitude c.envelope c.master_vol : ℝ) * (wave1 + wave2 + (noise c.noise r : ℝ))
  else
    let release_volume := generate_release c.envelope c.master_vol
    if release_volume < 0 then 0
    else (release_volume : ℝ) * (wave1 + wave2 + (noise c.noise r : ℝ))

/-- A concrete default-like engine state used in concrete instantiations. -/
def crust0 : Crust :=
  { time := 0
    sample_rate := 44100
    osc0 := { volume := 0.5, wave_index := 0, detune := 0 }
    osc1 := { volume := 0.5, wave_index := 0, detune := 0 }
    notes := []
    noise := 0
    envelope :=
      { attack := 0.05, decay := 0.05, sustain := 0.16, release := 0.14,
        duration := 0, end_time := 0, note_on := false }
    master_vol := 1 }

/-! ### Supporting lemmas (shared) -/

/-- When no zero divisor is executed, the checked amplitude agrees with the
plain rational model. -/
theorem get_amplitudeChecked_agrees (env : Envelope) (mv : ℚ)
    (ha : env.attack ≠ 0) (hd : env.decay ≠ 0) :
    get_amplitudeChecked env mv = some (get_amplitude env mv) := by
  unfold get_amplitudeChecked get_amplitude
  split_ifs <;> simp_all

/-! ### Claims -/

/-- C8: each of the four waveform generators returns exactly 0 when the
gain/volume argument is 0, for every note, time and detune. -/
theorem waveforms_zero_at_zero_gain (midi_note : ℕ) (time : ℝ) (detune : ℚ) :
    create_sine_wave midi_note 0 time detune = 0 ∧
    create_sawtooth_wave midi_note 0 time detune = 0 ∧
    create_square_wave midi_note 0 time detune = 0 ∧
    create_triangle_wave midi_note 0 time detune = 0 := by
  refine ⟨?_, ?_, ?_, ?_⟩ <;>
    simp [create_sine_wave, create_sawtooth_wave, create_square_wave,
      create_triangle_wave]

/-- C10: setting parameter i to a value v and then reading parameter i
returns the internally rescaled value: 10·v for the detune indices 2 and 5,
5·v for the attack/decay/release indices 7, 8 and 10, and v itself (the
identity round-trip) exactly for the remaining indices 0, 1, 3, 4, 6, 9, 11. -/
theorem set_get_parameter_rescaling (c : Crust) (v : ℚ) :
    get_parameter (set_parameter c 0 v) 0 = v ∧
    get_parameter (set_parameter c 1 v) 1 = v ∧
    get_parameter (set_parameter c 2 v) 2 = 10 * v ∧
    get_parameter (set_parameter c 3 v) 3 = v ∧
    get_parameter (set_parameter c 4 v) 4 = v ∧
    get_parameter (set_parameter c 5 v) 5 = 10 * v ∧
    get_parameter (set_parameter c 6 v) 6 = v ∧
    get_parameter (set_parameter c 7 v) 7 = 5 * v ∧
    get_parameter (set_parameter c 8 v) 8 = 5 * v ∧
    get_parameter (set_parameter c 9 v) 9 = v ∧
    get_parameter (set_parameter c 10 v) 10 = 5 * v ∧
    get_parameter (set_parameter c 11 v) 11 = v := by
  refine ⟨?_, ?_, ?_, ?_, ?_, ?_, ?_, ?_, ?_, ?_, ?_, ?_⟩ <;>
    simp [get_parameter, set_parameter] <;> ring

/-- C5: with attack > 0 and decay > 0, the gated amplitude is the attack ramp
(duration/attack)·master_vol for duration ≤ attack, the decay ramp
((duration−attack)/decay)·(sustain−master_vol)+master_vol for
attack < duration ≤ attack+decay, and sustain beyond attack+decay. -/
theorem get_amplitude_cases (env : Envelope) (mv : ℚ)
    (ha : 0 < env.attack) (hd : 0 < env.decay) :
    (env.duration ≤ env.attack →
      get_amplitude env mv = env.duration / env.attack * mv) ∧
    (env.attack < env.duration → env.duration ≤ env.attack + env.decay →
      get_amplitude env mv
        = (env.duration - env.attack) / env.decay * (env.sustain - mv) + mv) ∧
    (env.attack + env.decay < env.duration → get_amplitude env mv = env.sustain) := by
  unfold get_amplitude
  refine ⟨fun h => ?_, fun h1 h2 => ?_, fun h => ?_⟩
  · rw [if_pos h]
  · rw [if_neg (not_le.mpr h1), if_pos ⟨h1, h2⟩]
  · have h1 : ¬ env.duration ≤ env.attack := by
      push_neg
      linarith
    rw [if_neg h1, if_neg]
    rintro ⟨-, h2⟩
    linarith

/-- C5 witness: concrete attack-phase instance of `get_amplitude_cases`. -/
theorem get_amplitude_cases_witness :
    get_amplitude
      { attack := 2, decay := 3, sustain := 7, release := 1,
        duration := 1, end_time := 0, note_on := true } 4 = (1 : ℚ) / 2 * 4 :=
  (get_amplitude_cases
    { attack := 2, decay := 3, sustain := 7, release := 1,
      duration := 1, end_time := 0, note_on := true } 4
    (by norm_num) (by norm_num)).1 (by norm_num)

/-- A gated envelope with attack = 0 at its first sample (duration = 0). -/
def env_attack0 : Envelope :=
  { attack := 0, decay := 0.05, sustain := 0.16, release := 0.14,
    duration := 0, end_time := 0, note_on := true }

/-- C3: with attack = 0 and duration = 0 (the first sample after note-on) the
gated amplitude computation takes the attack branch and executes the division
duration/attack with zero divisor — 0.0/0.0, NaN in f32, flagged `none` by the
checked model.  The rational model (x/0 = 0) yields amplitude 0, not the
master volume 1: there is no saturation of the attack ratio to 1. -/
theorem get_amplitude_attack_zero_division :
    get_amplitudeChecked env_attack0 1 = none ∧
    get_amplitude env_attack0 1 = 0 := by
  constructor <;> norm_num [get_amplitudeChecked, get_amplitude, env_attack0]

/-- A gated engine state holding the duplicate registry [60, 60]. -/
def crust_dup60 : Crust :=
  { crust0 with
    notes := [60, 60],
    envelope := { crust0.envelope with note_on := true } }

/-- C1 counterexample: with registry [60, 60], note_off 60 empties the
registry entirely, instead of removing only the first occurrence (which
would leave [60]). -/
theorem note_off_first_occurrence_counterexample :
    (note_off crust_dup60 60).notes = [] ∧ ([] : List ℕ) ≠ [60] := by
  constructor
  · simp [note_off, crust_dup60, crust0]
  · simp

/-- C1 amended: note_off n removes every occurrence of n from the registry
(its count drops to 0) while preserving the multiplicity of every other note. -/
theorem note_off_removes_all_occurrences (c : Crust) (n : ℕ) :
    (note_off c n).notes.count n = 0 ∧
    ∀ m : ℕ, m ≠ n → (note_off c n).notes.count m = c.notes.count m := by
  constructor
  · simp [note_off, List.count_eq_zero, List.mem_filter]
  · intro m hm
    simp only [note_off]
    rw [List.count_filter]
    simp [hm]

/-- C1 amended witness: concrete instance on the registry [60, 61, 60]. -/
theorem note_off_removes_all_occurrences_witness :
    (note_off { crust0 with notes := [60, 61, 60] } 60).notes.count 60 = 0 ∧
    (note_off { crust0 with notes := [60, 61, 60] } 60).notes.count 61
      = ({ crust0 with notes := [60, 61, 60] } : Crust).notes.count 61 :=
  ⟨(note_off_removes_all_occurrences { crust0 with notes := [60, 61, 60] } 60).1,
   (note_off_removes_all_occurrences { crust0 with notes := [60, 61, 60] } 60).2
     61 (by norm_num)⟩

/-- A gated engine state holding only the note 60. -/
def crust_gated60 : Crust :=
  { crust0 with
    notes := [60],
    envelope := { crust0.envelope with note_on := true } }

/-- C9 counterexample: note_off 61 on a gated state whose registry is [60]
(61 absent) leaves the registry alone but flips the envelope gate from open
to closed — the engine state is not left unchanged. -/
theorem note_off_absent_counterexample :
    (61 : ℕ) ∉ crust_gated60.notes ∧
    crust_gated60.envelope.note_on = true ∧
    (note_off crust_gated60 61).envelope.note_on = false := by
  refine ⟨?_, ?_, ?_⟩ <;> simp [note_off, crust_gated60, crust0]

/-- C9 amended: for a note absent from the registry, note_off raises no fault
and leaves the registry and every non-envelope field unchanged, but it still
closes the shared envelope gate and resets the release timer to 0. -/
theorem note_off_absent_note (c : Crust) (n : ℕ) (h : n ∉ c.notes) :
    note_off c n
      = { c with envelope := { c.envelope with note_on := false, end_time := 0 } } := by
  simp only [note_off]
  congr 1
  rw [List.filter_eq_self]
  intro a ha
  simp only [bne_iff_ne, ne_eq, decide_eq_true_eq]
  rintro rfl
  exact h ha

/-- C9 amended witness: concrete instance at the absent note 61. -/
theorem note_off_absent_note_witness :
    note_off crust_gated60 61
      = { crust_gated60 with
          envelope := { crust_gated60.envelope with note_on := false, end_time := 0 } } :=
  note_off_absent_note crust_gated60 61 (by norm_num [crust_gated60, crust0])

/-- C6: for an ungated envelope (with nonnegative decay, as every envelope
reachable through the parameter surface has), the release amplitude is the
linear ramp (release_timer/release)·(0 − A) + A where A is exactly the gated
ADS amplitude at the frozen phase timer; in particular at release_timer = 0
it coincides with the gated amplitude (continuity at note-off). -/
theorem generate_release_ramp (env : Envelope) (mv : ℚ)
    (hg : env.note_on = false) (hd : 0 ≤ env.decay) :
    generate_release env mv
      = env.end_time / env.release * (0 - get_amplitude env mv) + get_amplitude env mv ∧
    (env.end_time = 0 → generate_release env mv = get_amplitude env mv) := by
  have hkey : generate_release env mv
      = env.end_time / env.release * (0 - get_amplitude env mv) + get_amplitude env mv := by
    simp only [generate_release, get_amplitude]
    rcases le_or_lt env.duration env.attack with h1 | h1
    · have hc2 : ¬(env.duration > env.attack ∧ env.duration ≤ env.attack + env.decay) :=
        fun hc => absurd hc.1 (not_lt.mpr h1)
      have hc3 : ¬ env.duration > env.attack + env.decay := by
        push_neg
        linarith
      simp only [if_pos h1, if_neg hc2, if_neg hc3]
    · rcases le_or_lt env.duration (env.attack + env.decay) with h2 | h2
      · have hc3 : ¬ env.duration > env.attack + env.decay := not_lt.mpr h2
        simp only [if_neg (not_le.mpr h1), if_pos (show env.duration > env.attack ∧
          env.duration ≤ env.attack + env.decay from ⟨h1, h2⟩), if_neg hc3]
      · have hc2 : ¬(env.duration > env.attack ∧ env.duration ≤ env.attack + env.decay) :=
          fun hc => absurd hc.2 (not_le.mpr h2)
        simp only [if_neg (not_le.mpr h1), if_neg hc2, if_pos (show
          env.duration > env.attack + env.decay from h2)]
  exact ⟨hkey, fun h0 => by rw [hkey, h0]; ring⟩

/-- An ungated envelope mid-release, past attack + decay. -/
def env_release : Envelope :=
  { attack := 1, decay := 1, sustain := 1 / 2, release := 2,
    duration := 3, end_time := 1, note_on := false }

/-- C6 witness: concrete instance of `generate_release_ramp`. -/
theorem generate_release_ramp_witness :
    generate_release env_release 1
      = env_release.end_time / env_release.release *
          (0 - get_amplitude env_release 1) + get_amplitude env_release 1 :=
  (generate_release_ramp env_release 1 (by norm_num [env_release])
    (by norm_num [env_release])).1

/-- C7: the pitch converter is a total function of the u8 note domain equal to
440·2^((note−69)/12) − detune; concretely 440 Hz at note 69, 880 at note 81,
220 at note 57, and a factor 2 (one octave) per 12 semitones. -/
theorem midi_note_num_to_freq_spec :
    (∀ (n : ℕ) (d : ℚ), n ≤ 255 →
      midi_note_num_to_freq n d = 440 * (2 : ℝ) ^ (((n : ℝ) - 69) / 12) - (d : ℝ)) ∧
    midi_note_num_to_freq 69 0 = 440 ∧
    midi_note_num_to_freq 81 0 = 880 ∧
    midi_note_num_to_freq 57 0 = 220 ∧
    ∀ n : ℕ, n + 12 ≤ 255 →
      midi_note_num_to_freq (n + 12) 0 = 2 * midi_note_num_to_freq n 0 := by
  refine ⟨fun n d _ => by rw [midi_note_num_to_freq, mul_comm], ?_, ?_, ?_, ?_⟩
  · norm_num [midi_note_num_to_freq]
  · have h : ((((81:ℕ)):ℝ) - 69) / 12 = 1 := by norm_num
    rw [midi_note_num_to_freq, h, Real.rpow_one]
    norm_num
  · have h : ((((57:ℕ)):ℝ) - 69) / 12 = -1 := by norm_num
    rw [midi_note_num_to_freq, h, Real.rpow_neg_one]
    norm_num
  · intro n _
    have h : ((((n + 12 : ℕ)):ℝ) - 69) / 12 = (((n:ℕ):ℝ) - 69) / 12 + 1 := by
      push_cast
      ring
    rw [midi_note_num_to_freq, midi_note_num_to_freq, h,
      Real.rpow_add (by norm_num : (0:ℝ) < 2), Real.rpow_one]
    push_cast
    ring

/-- C7 witness: the octave-doubling and closed-form conjuncts instantiated at
note 60 (middle C). -/
theorem midi_note_num_to_freq_spec_witness :
    midi_note_num_to_freq 60 0
      = 440 * (2 : ℝ) ^ ((((60:ℕ) : ℝ) - 69) / 12) - ((0 : ℚ) : ℝ) ∧
    midi_note_num_to_freq (60 + 12) 0 = 2 * midi_note_num_to_freq 60 0 :=
  ⟨midi_note_num_to_freq_spec.1 60 0 (by norm_num),
   midi_note_num_to_freq_spec.2.2.2.2 60 (by norm_num)⟩

/-- C4 amended: with an empty note registry the two oscillator accumulations
are the empty sum 0 (no per-note waveform computation), and the output sample
is exactly 0 provided the noise amount is 0 (the renderer adds a noise draw
even when no note is held, so silence additionally needs noise = 0). -/
theorem renderSample_empty_registry (c : Crust) (r : ℚ)
    (hn : c.notes = []) (hz : c.noise = 0) :
    accumulate_wave c.osc0 c.time c.notes = 0 ∧
    accumulate_wave c.osc1 c.time c.notes = 0 ∧
    renderSample c r = 0 := by
  refine ⟨by rw [hn]; rfl, by rw [hn]; rfl, ?_⟩
  simp only [renderSample, hn, hz, accumulate_wave, List.foldl_nil, noise]
  norm_num

/-- C4 amended witness: the default engine state (empty registry, noise 0). -/
theorem renderSample_empty_registry_witness :
    accumulate_wave crust0.osc0 crust0.time crust0.notes = 0 ∧
    accumulate_wave crust0.osc1 crust0.time crust0.notes = 0 ∧
    renderSample crust0 1 = 0 :=
  renderSample_empty_registry crust0 1 rfl rfl

/-- An engine state with empty registry but noise amount 1, gated, with the
envelope at the end of its attack ramp (amplitude = master_vol = 1). -/
def crust_noise_only : Crust :=
  { time := 0
    sample_rate := 44100
    osc0 := { volume := 0.5, wave_index := 0, detune := 0 }
    osc1 := { volume := 0.5, wave_index := 0, detune := 0 }
    notes := []
    noise := 1
    envelope :=
      { attack := 1, decay := 1, sustain := 1, release := 1,
        duration := 1, end_time := 0, note_on := true }
    master_vol := 1 }

/-- C4 counterexample: with an empty registry but noise amount 1, the rendered
sample at noise draw r = 1 is 7/102, not 0 — an empty registry alone does not
yield silence. -/
theorem renderSample_empty_registry_counterexample :
    crust_noise_only.notes = [] ∧
    renderSample crust_noise_only 1 = 7 / 102 ∧
    (7 / 102 : ℝ) ≠ 0 := by
  refine ⟨rfl, ?_, by norm_num⟩
  simp only [renderSample, crust_noise_only, accumulate_wave, List.foldl_nil,
    noise, get_amplitude]
  norm_num

/-- C2 amended: in release, the renderer writes exactly 0 precisely when the
computed release amplitude is negative (the clamp threshold in the code is
0.0, not 0.0001); for every nonnegative release amplitude — including values
in [0, 0.0001) — it writes amplitude · (wave1 + wave2 + noise). -/
theorem renderSample_release_floor (c : Crust) (r : ℚ)
    (hg : c.envelope.note_on = false) :
    (generate_release c.envelope c.master_vol < 0 → renderSample c r = 0) ∧
    (0 ≤ generate_release c.envelope c.master_vol →
      renderSample c r
        = (generate_release c.envelope c.master_vol : ℝ) *
          (accumulate_wave c.osc0 c.time c.notes +
            accumulate_wave c.osc1 c.time c.notes + (noise c.noise r : ℝ))) := by
  constructor <;> intro h
  · simp [renderSample, hg, h]
  · simp [renderSample, hg, not_lt.mpr h]

/-- An ungated engine state whose computed release amplitude is 1/20000,
below the claimed 0.0001 floor but nonnegative. -/
def crust_small_release : Crust :=
  { time := 0
    sample_rate := 44100
    osc0 := { volume := 0.5, wave_index := 0, detune := 0 }
    osc1 := { volume := 0.5, wave_index := 0, detune := 0 }
    notes := []
    noise := 1
    envelope :=
      { attack := 0, decay := 0, sustain := 1, release := 1,
        duration := 1, end_time := 19999 / 20000, note_on := false }
    master_vol := 1 }

/-- C2 counterexample: the computed release amplitude 1/20000 is below the
floor 0.0001, yet the rendered sample at noise draw r = 1 is the residual
(1/20000)·(7/102) = 7/2040000 ≠ 0: the code multiplies instead of clamping. -/
theorem renderSample_release_floor_counterexample :
    generate_release crust_small_release.envelope crust_small_release.master_vol
      = 1 / 20000 ∧
    (1 / 20000 : ℚ) < 0.0001 ∧
    renderSample crust_small_release 1 = 7 / 2040000 ∧
    (7 / 2040000 : ℝ) ≠ 0 := by
  refine ⟨?_, by norm_num, ?_, by norm_num⟩
  · simp only [generate_release, crust_small_release]
    norm_num
  · simp only [renderSample, crust_small_release, accumulate_wave, List.foldl_nil,
      noise, generate_release]
    norm_num

/-- C2 amended witness: concrete instance of `renderSample_release_floor` on
`crust_small_release` (release amplitude 1/20000 ≥ 0). -/
theorem renderSample_release_floor_witness :
    renderSample crust_small_release 1
      = (generate_release crust_small_release.envelope crust_small_release.master_vol : ℝ) *
        (accumulate_wave crust_small_release.osc0 crust_small_release.time
            crust_small_release.notes +
          accumulate_wave crust_small_release.osc1 crust_small_release.time
            crust_small_release.notes +
          (noise crust_small_release.noise 1 : ℝ)) :=
  (renderSample_release_floor crust_small_release 1 rfl).2
    (by simp only [generate_release, crust_small_release]; norm_num)
